import Mathlib

/-!
Verification of the vm-forks process pool (`vmForks.ts`).

The module under study dispatches test files to a bounded pool of forked
worker processes.  We shallowly embed its pure decision logic:

* `strHas` models JavaScript substring regex tests such as
  `/Failed to terminate worker/.test(msg)`;
* `Emitter` and `createChildProcessChannel` model the per-task
  `EventEmitter` and its `cleanup = () => emitter.removeAllListeners()`;
* `runFiles` models the `runFiles` function: the try/catch/finally around
  `pool.run`, classifying a settled outcome into a swallowed
  process-timeout cause, a swallowed cancellation, or a rethrown error,
  with the channel cleanup applied on every path (the `finally` block);
* `dispatchFrom` models the dispatch closure returned by `runWithFiles`:
  it maps `runFiles` over every file spec (`Promise.allSettled` semantics,
  so every task is driven to settlement), threads the `++id` worker-id
  counter, collects the rejected reasons and raises a single aggregate
  error when any remain;
* `poolDispatchSeqAux` models successive calls of the same dispatch
  function sharing the `let id = 0` counter of the `runWithFiles` closure;
* `resolvePoolSize` models the worker-count computation of
  `createVmForksPool` (defaults, `maxForks`/`maxWorkers`/`minWorkers`
  overrides, `singleFork` / disabled `fileParallelism`);
* `getMemoryLimit` models the memory-ceiling resolution, with
  `stringToBytes` modelled from the specification because its source lives
  outside this repository snapshot;
* `stringifyRegex` models the regex-to-string rewriting used before
  v8-serializing a configuration snapshot.
-/

/-! ## Strings and JavaScript error values -/

/-- Character-list matcher: `matchesAt pat s` holds when `pat` is an initial
segment of `s`.  Used to model JavaScript regex substring tests. -/
def matchesAt : List Char → List Char → Bool
  | [], _ => true
  | _ :: _, [] => false
  | p :: ps, c :: cs => p == c && matchesAt ps cs

/-- Substring search: `hasSub pat s` holds when `pat` occurs contiguously
somewhere in `s`. -/
def hasSub (pat : List Char) : List Char → Bool
  | [] => matchesAt pat []
  | c :: cs => matchesAt pat (c :: cs) || hasSub pat cs

/-- Models the JavaScript test `/pat/.test(s)` for a literal pattern,
i.e. a substring occurrence check. -/
def strHas (s pat : String) : Bool :=
  hasSub pat.toList s.toList

/-- The literal pattern of the stuck-worker branch in `runFiles`. -/
def termPattern : String :=
  "Failed to terminate worker"

/-- The literal pattern of the cancellation branch in `runFiles`. -/
def cancelPattern : String :=
  "The task has been cancelled"

/-- A JavaScript rejection reason: either an `Error` instance carrying a
message, or any non-`Error` value carrying its textual form.  The
`instanceof Error` checks in `runFiles` distinguish exactly these two. -/
inductive JSValue where
  | jsError (message : String)
  | nonError (text : String)
deriving DecidableEq, Repr

/-- Models `error instanceof Error && /Failed to terminate worker/.test(error.message)`. -/
def isTerminateTimeout : JSValue → Bool
  | .jsError msg => strHas msg termPattern
  | .nonError _ => false

/-- Models `error instanceof Error && /The task has been cancelled/.test(error.message)`. -/
def isCancelMatch : JSValue → Bool
  | .jsError msg => strHas msg cancelPattern
  | .nonError _ => false

/-- The settlement of one `pool.run` call: the promise either resolved or
rejected with a reason. -/
inductive TaskOutcome where
  | success
  | rejected (reason : JSValue)
deriving DecidableEq, Repr

/-! ## The per-task channel (`createChildProcessChannel`) -/

/-- Listener state of the per-task `EventEmitter`: how many callbacks are
registered on the `message` event and on the `response` event. -/
structure Emitter where
  message : Nat
  response : Nat
deriving DecidableEq, Repr

def Emitter.empty : Emitter :=
  { message := 0, response := 0 }

/-- Models `emitter.on(events.message, callback)` — the pool subscribing
through `channel.onMessage`. -/
def Emitter.onMessage (e : Emitter) : Emitter :=
  { e with message := e.message + 1 }

/-- Models `emitter.on(events.response, fn)` — birpc subscribing through
its `on` option. -/
def Emitter.onResponse (e : Emitter) : Emitter :=
  { e with response := e.response + 1 }

/-- Models `emitter.removeAllListeners()`. -/
def Emitter.removeAllListeners (_ : Emitter) : Emitter :=
  { message := 0, response := 0 }

def Emitter.total (e : Emitter) : Nat :=
  e.message + e.response

/-- The value returned by `createChildProcessChannel`: the emitter with the
listeners registered during channel construction and task start, and the
`cleanup` closure over it. -/
structure Channel where
  emitter : Emitter
  cleanup : Emitter → Emitter

/-- Models `createChildProcessChannel`: birpc registers its `response`
listener, the pool registers its `message` listener, and `cleanup` is
`() => emitter.removeAllListeners()`. -/
def createChildProcessChannel : Channel :=
  { emitter := Emitter.empty.onResponse.onMessage
    cleanup := Emitter.removeAllListeners }

/-! ## `runFiles`: one task, classification of its settlement -/

/-- How the `runFiles` promise itself settles: the catch block either
swallows the rejection (promise resolves) or rethrows it. -/
inductive TaskResult where
  | resolved
  | rethrown (e : JSValue)
deriving DecidableEq, Repr

/-- Everything observable from one `runFiles` call: the assigned
`workerId = ++id`, the settlement (`result`), the
`ctx.state.addProcessTimeoutCause` messages, the file lists passed to
`ctx.state.cancelFiles`, and the channel emitter state after the
`finally { cleanup() }` block. -/
structure RunFilesOut where
  workerId : Nat
  result : TaskResult
  timeoutCauses : List String
  cancelledFiles : List (List String)
  emitterAfter : Emitter
deriving DecidableEq, Repr

/-- Models `Array.prototype.join(", ")` on the `files` array. -/
def joinComma : List String → String
  | [] => ""
  | [f] => f
  | f :: rest => f ++ ", " ++ joinComma rest

/-- Models `runFiles`: create the channel, take `workerId = ++id`, run the
task, and in the catch block classify a rejection in source order —
stuck-worker pattern first, then (under `ctx.isCancelling`) the
cancellation pattern, otherwise rethrow — with `cleanup()` running in the
`finally` block on every path. -/
def runFiles (isCancelling : Bool) (id0 : Nat) (files : List String)
    (outcome : TaskOutcome) : RunFilesOut :=
  let chan := createChildProcessChannel
  let workerId := id0 + 1
  let after := chan.cleanup chan.emitter
  match outcome with
  | .success =>
      { workerId := workerId, result := .resolved, timeoutCauses := []
        cancelledFiles := [], emitterAfter := after }
  | .rejected error =>
      if isTerminateTimeout error then
        { workerId := workerId, result := .resolved
          timeoutCauses :=
            ["Failed to terminate worker while running " ++ joinComma files ++ "."]
          cancelledFiles := [], emitterAfter := after }
      else if isCancelling && isCancelMatch error then
        { workerId := workerId, result := .resolved, timeoutCauses := []
          cancelledFiles := [files], emitterAfter := after }
      else
        { workerId := workerId, result := .rethrown error, timeoutCauses := []
          cancelledFiles := [], emitterAfter := after }

/-! ## The dispatch function returned by `runWithFiles` -/

/-- One per-file unit produced by flattening `groupFilesByEnv`: the `files`
array handed to `runFiles` (a singleton in the source) and how its
`pool.run` settles. -/
structure TaskRun where
  files : List String
  outcome : TaskOutcome
deriving DecidableEq, Repr

structure AggregateError where
  errors : List JSValue
  message : String
deriving DecidableEq, Repr

/-- How the dispatch call settles: resolves with no value, or rejects with
one aggregate error. -/
inductive DispatchResult where
  | resolved
  | rejectedWith (e : AggregateError)
deriving DecidableEq, Repr

/-- The observable outcome of one dispatch call: every task settlement
(`Promise.allSettled` drives all of them) plus the final result. -/
structure DispatchOut where
  runs : List RunFilesOut
  result : DispatchResult
deriving DecidableEq, Repr

/-- The rejection reason a settled `runFiles` contributes, if any. -/
def rejectedReason (r : RunFilesOut) : Option JSValue :=
  match r.result with
  | .resolved => none
  | .rethrown e => some e

/-- Runs `runFiles` over the flattened file units in creation order,
threading the `++id` counter (the increments happen synchronously while the
promises are created). -/
def dispatchRuns (isCancelling : Bool) (id0 : Nat) :
    List TaskRun → List RunFilesOut × Nat
  | [] => ([], id0)
  | t :: ts =>
      let r := runFiles isCancelling id0 t.files t.outcome
      let rest := dispatchRuns isCancelling (id0 + 1) ts
      (r :: rest.1, rest.2)

def fixedAggregateMessage : String :=
  "Errors occurred while running tests. For more information, see serialized error."

/-- Models one call of the dispatch function returned by `runWithFiles`,
starting from counter state `id0`: await all settlements, filter the
rejected ones, and throw a single `AggregateError` when any remain.
Returns the dispatch outcome and the counter state left behind. -/
def dispatchFrom (isCancelling : Bool) (id0 : Nat) (tasks : List TaskRun) :
    DispatchOut × Nat :=
  let rs := dispatchRuns isCancelling id0 tasks
  let errors := rs.1.filterMap rejectedReason
  ({ runs := rs.1
     result :=
       if errors.length > 0 then
         .rejectedWith { errors := errors, message := fixedAggregateMessage }
       else
         .resolved },
   rs.2)

/-- Successive calls of the same dispatch function share the single
`let id = 0` counter of the `runWithFiles` closure: each call starts from
the counter state the previous call left behind. -/
def poolDispatchSeqAux (isCancelling : Bool) (id0 : Nat) :
    List (List TaskRun) → List DispatchOut
  | [] => []
  | call :: rest =>
      let p := dispatchFrom isCancelling id0 call
      p.1 :: poolDispatchSeqAux isCancelling p.2 rest

/-- A fresh pool (`runWithFiles` ran once, `let id = 0`) processing a
sequence of dispatch calls. -/
def poolDispatchSeq (isCancelling : Bool) (calls : List (List TaskRun)) :
    List DispatchOut :=
  poolDispatchSeqAux isCancelling 0 calls

/-! ## Specification-side characterization of genuine errors -/

/-- The error a task contributes to the aggregate when its rejection
survives classification as a genuine error (spec section 4.4). -/
def genuineErr (isCancelling : Bool) (t : TaskRun) : Option JSValue :=
  match t.outcome with
  | .success => none
  | .rejected e =>
      if isTerminateTimeout e then none
      else if isCancelling && isCancelMatch e then none
      else some e

/-- The genuine errors of a dispatch call, in task order. -/
def genuineErrors (isCancelling : Bool) (tasks : List TaskRun) : List JSValue :=
  tasks.filterMap (genuineErr isCancelling)

/-- The error list carried by a rejected dispatch outcome (empty when it
resolved). -/
def aggregateErrors (d : DispatchOut) : List JSValue :=
  match d.result with
  | .resolved => []
  | .rejectedWith ag => ag.errors

/-- Residual per-task channel listeners after a dispatch call settled. -/
def residualListenerCount (d : DispatchOut) : Nat :=
  (d.runs.map (fun r => r.emitterAfter.total)).sum

/-- The worker ids `start + 1, start + 2, ...` produced by `n` consecutive
`++id` increments. -/
def idsFrom (start : Nat) : Nat → List Nat
  | 0 => []
  | n + 1 => (start + 1) :: idsFrom (start + 1) n

/-! ## Pool sizing (`createVmForksPool`) -/

/-- The sizing inputs of `createVmForksPool`: the available processing
units, watch mode, the `poolOptions.vmForks` overrides and the top-level
worker overrides. -/
structure PoolSizingInput where
  watch : Bool
  numCpus : Nat
  maxForks : Option Nat
  maxWorkers : Option Nat
  minWorkers : Option Nat
  singleFork : Bool
  fileParallelism : Bool
deriving DecidableEq, Repr

/-- Models `threadsCount`: `Math.max(Math.floor(numCpus / 2), 1)` in watch
mode, `Math.max(numCpus - 1, 1)` otherwise. -/
def threadsCount (watch : Bool) (numCpus : Nat) : Nat :=
  if watch then max (numCpus / 2) 1 else max (numCpus - 1) 1

/-- Models the `(maxThreads, minThreads)` pair of the Tinypool options:
the nullish-coalescing chains `maxForks ?? maxWorkers ?? threadsCount` and
`maxForks ?? minWorkers ?? threadsCount`, then the `singleFork`
/ `!fileParallelism` override forcing both to 1. -/
def resolvePoolSize (i : PoolSizingInput) : Nat × Nat :=
  let tc := threadsCount i.watch i.numCpus
  let maxThreads := i.maxForks.getD (i.maxWorkers.getD tc)
  let minThreads := i.maxForks.getD (i.minWorkers.getD tc)
  if i.singleFork || !i.fileParallelism then (1, 1)
  else (maxThreads, minThreads)

/-- The sizing inputs when no user override is supplied. -/
def defaultSizingInput (watch : Bool) (u : Nat) : PoolSizingInput :=
  { watch := watch, numCpus := u, maxForks := none, maxWorkers := none
    minWorkers := none, singleFork := false, fileParallelism := true }

/-! ## Memory-limit resolution (`getMemoryLimit`) -/

/-- A user memory-limit specification: a number (a byte count when above 1,
a ratio of the baseline when at most 1), a trailing-percent string `"p%"`,
or a non-percent string denoting a byte count. -/
inductive MemLimit where
  | num (n : ℚ)
  | strPercent (p : ℚ)
  | strBytes (n : ℚ)
deriving DecidableEq, Repr

/-- Modelled from the spec: `stringToBytes` (its source lives outside this
repository snapshot, in `utils/memory-limit`).  A literal byte-count spec
is used as-is; a ratio at most 1 or a percentage string is multiplied
against the baseline, and without a baseline such values are not
resolvable and yield no ceiling. -/
def stringToBytes (limit : MemLimit) (baseline : Option ℚ) : Option ℚ :=
  match limit with
  | .num n => if n ≤ 1 then baseline.map (fun b => n * b) else some n
  | .strPercent p => baseline.map (fun b => p / 100 * b)
  | .strBytes n => some n

/-- Does the limit fall under
`(typeof limit === "number" && limit > 1) || (typeof limit === "string" && limit.at(-1) !== "%")`? -/
def resolvableWithoutTotal (limit : MemLimit) : Bool :=
  match limit with
  | .num n => decide (1 < n)
  | .strPercent _ => false
  | .strBytes _ => true

/-- Models `getMemoryLimit`: when total memory is known, resolve against
the baseline (half of total memory in watch mode, total memory otherwise);
when it is unknown, only a numeric limit above 1 or a non-percent string
still resolves, everything else yields `null`. -/
def getMemoryLimit (watch : Bool) (totalmem : Option ℚ) (limit : MemLimit) :
    Option ℚ :=
  match totalmem with
  | some memory =>
      stringToBytes limit (some (if watch then memory / 2 else memory))
  | none =>
      if resolvableWithoutTotal limit then stringToBytes limit none
      else none

/-! ## Config serialization (`stringifyRegex`) -/

/-- A JavaScript `RegExp`, kept as its source and flags; its `toString()`
is `"/" + source + "/" + flags`. -/
structure JSRegExp where
  source : String
  flags : String
deriving DecidableEq, Repr

def JSRegExp.toString (r : JSRegExp) : String :=
  "/" ++ r.source ++ "/" ++ r.flags

/-- The `RegExp | string` union taken by `stringifyRegex`. -/
inductive RegexOrString where
  | re (r : JSRegExp)
  | str (s : String)
deriving DecidableEq, Repr

def vitestMarker : String :=
  "$$vitest:"

/-- Models `stringifyRegex`: a string passes through unchanged, a regex is
rewritten to the fixed marker followed by its textual form. -/
def stringifyRegex : RegexOrString → String
  | .str s => s
  | .re r => vitestMarker ++ r.toString

/-! ## Helper lemmas -/

theorem runFiles_workerId (c : Bool) (id0 : Nat) (fs : List String)
    (o : TaskOutcome) : (runFiles c id0 fs o).workerId = id0 + 1 := by
  cases o with
  | success => rfl
  | rejected e =>
      by_cases h1 : isTerminateTimeout e = true
      · simp [runFiles, h1]
      · by_cases h2 : (c && isCancelMatch e) = true
        · simp [runFiles, h1, h2]
        · simp [runFiles, h1, h2]

theorem runFiles_emitterAfter (c : Bool) (id0 : Nat) (fs : List String)
    (o : TaskOutcome) :
    (runFiles c id0 fs o).emitterAfter = Emitter.empty := by
  cases o with
  | success => rfl
  | rejected e =>
      by_cases h1 : isTerminateTimeout e = true
      · simp [runFiles, h1]
        rfl
      · by_cases h2 : (c && isCancelMatch e) = true
        · simp [runFiles, h1, h2]
          rfl
        · simp [runFiles, h1, h2]
          rfl

theorem rejectedReason_runFiles (c : Bool) (id0 : Nat) (t : TaskRun) :
    rejectedReason (runFiles c id0 t.files t.outcome) = genuineErr c t := by
  cases ho : t.outcome with
  | success => simp [runFiles, rejectedReason, genuineErr, ho]
  | rejected e =>
      by_cases h1 : isTerminateTimeout e = true
      · simp [runFiles, rejectedReason, genuineErr, ho, h1]
      · by_cases h2 : (c && isCancelMatch e) = true
        · simp [runFiles, rejectedReason, genuineErr, ho, h1, h2]
        · simp [runFiles, rejectedReason, genuineErr, ho, h1, h2]

theorem dispatchRuns_length (c : Bool) (id0 : Nat) (tasks : List TaskRun) :
    (dispatchRuns c id0 tasks).1.length = tasks.length := by
  induction tasks generalizing id0 with
  | nil => rfl
  | cons t ts ih => simp [dispatchRuns, ih]

theorem dispatchRuns_snd (c : Bool) (id0 : Nat) (tasks : List TaskRun) :
    (dispatchRuns c id0 tasks).2 = id0 + tasks.length := by
  induction tasks generalizing id0 with
  | nil => simp [dispatchRuns]
  | cons t ts ih => simp [dispatchRuns, ih]; omega

theorem dispatchRuns_ids (c : Bool) (id0 : Nat) (tasks : List TaskRun) :
    (dispatchRuns c id0 tasks).1.map (fun r => r.workerId) =
      idsFrom id0 tasks.length := by
  induction tasks generalizing id0 with
  | nil => rfl
  | cons t ts ih => simp [dispatchRuns, idsFrom, runFiles_workerId, ih]

theorem dispatchRuns_filterMap (c : Bool) (id0 : Nat) (tasks : List TaskRun) :
    (dispatchRuns c id0 tasks).1.filterMap rejectedReason =
      genuineErrors c tasks := by
  induction tasks generalizing id0 with
  | nil => rfl
  | cons t ts ih =>
      simp only [dispatchRuns, genuineErrors, List.filterMap_cons,
        rejectedReason_runFiles]
      cases genuineErr c t <;> simp [genuineErrors] at ih ⊢ <;> exact ih _

theorem dispatchFrom_result (c : Bool) (id0 : Nat) (tasks : List TaskRun) :
    (dispatchFrom c id0 tasks).1.result =
      (if genuineErrors c tasks = [] then DispatchResult.resolved
       else .rejectedWith
         { errors := genuineErrors c tasks
           message := fixedAggregateMessage }) := by
  simp only [dispatchFrom, dispatchRuns_filterMap]
  rcases eq_or_ne (genuineErrors c tasks) [] with h | h
  · simp [h]
  · simp [h, List.length_pos.mpr h]

theorem genuineErr_not_term (c : Bool) (t : TaskRun) (e : JSValue)
    (h : genuineErr c t = some e) : isTerminateTimeout e = false := by
  cases ho : t.outcome with
  | success => simp [genuineErr, ho] at h
  | rejected e0 =>
      by_cases h1 : isTerminateTimeout e0 = true
      · simp [genuineErr, ho, h1] at h
      · by_cases h2 : (c && isCancelMatch e0) = true
        · simp [genuineErr, ho, h1, h2] at h
        · simp [genuineErr, ho, h1, h2] at h
          subst h
          simpa using h1

theorem aggregateErrors_dispatchFrom (c : Bool) (id0 : Nat)
    (tasks : List TaskRun) :
    aggregateErrors (dispatchFrom c id0 tasks).1 = genuineErrors c tasks := by
  have h := dispatchFrom_result c id0 tasks
  rcases eq_or_ne (genuineErrors c tasks) [] with he | he
  · simp [aggregateErrors, h, he]
  · simp [aggregateErrors, h, he]

theorem residual_dispatchRuns (c : Bool) (id0 : Nat) (tasks : List TaskRun) :
    ((dispatchRuns c id0 tasks).1.map (fun r => r.emitterAfter.total)).sum
      = 0 := by
  induction tasks generalizing id0 with
  | nil => rfl
  | cons t ts ih =>
      simp [dispatchRuns, runFiles_emitterAfter, ih]
      rfl

theorem dispatchFrom_snd (c : Bool) (id0 : Nat) (tasks : List TaskRun) :
    (dispatchFrom c id0 tasks).2 = id0 + tasks.length := by
  simp [dispatchFrom, dispatchRuns_snd]

/-! ## Claims -/

/-- Claim C1: every call of the dispatch function returned by
`runWithFiles` drives every per-file task to settlement (never
short-circuiting on the first rejection), rejects exactly when at least one
rejection survives classification as a genuine error, and then throws a
single aggregate error holding exactly the genuine errors together with the
fixed message; otherwise it resolves with no value.  The final conjunct
instantiates the N-files-one-genuine-rejection case: the aggregate holds
exactly that one error even though later tasks were still awaited. -/
theorem claim_C1 (c : Bool) (id0 : Nat) (tasks : List TaskRun) :
    ((dispatchFrom c id0 tasks).1.runs.length = tasks.length) ∧
    ((dispatchFrom c id0 tasks).1.result =
      (if genuineErrors c tasks = [] then DispatchResult.resolved
       else .rejectedWith
         { errors := genuineErrors c tasks
           message := fixedAggregateMessage })) ∧
    ((dispatchFrom c id0 tasks).1.result = .resolved ↔
      genuineErrors c tasks = []) ∧
    ((dispatchFrom false 0
        [⟨["a.ts"], .success⟩,
         ⟨["b.ts"], .rejected (.jsError ("boom"))⟩,
         ⟨["c.ts"], .success⟩]).1.result =
      .rejectedWith
        { errors := [.jsError ("boom")]
          message := fixedAggregateMessage }) := by
  refine ⟨?_, dispatchFrom_result c id0 tasks, ?_, by decide⟩
  · simp [dispatchFrom, dispatchRuns_length]
  · have h := dispatchFrom_result c id0 tasks
    rcases eq_or_ne (genuineErrors c tasks) [] with he | he
    · simp [h, he]
    · simp [h, he]

/-- Claim C4: with no overrides, the default worker count is
`max(floor(u/2), 1)` in watch mode and `max(u-1, 1)` otherwise; in
particular `u = 8` gives 4 and 7 respectively and `u = 1` gives 1 in both
modes. -/
theorem claim_C4 (u : Nat) (hu : 0 < u) :
    resolvePoolSize (defaultSizingInput true u) =
      (max (u / 2) 1, max (u / 2) 1) ∧
    resolvePoolSize (defaultSizingInput false u) =
      (max (u - 1) 1, max (u - 1) 1) ∧
    resolvePoolSize (defaultSizingInput true 8) = (4, 4) ∧
    resolvePoolSize (defaultSizingInput false 8) = (7, 7) ∧
    resolvePoolSize (defaultSizingInput true 1) = (1, 1) ∧
    resolvePoolSize (defaultSizingInput false 1) = (1, 1) :=
  ⟨by simp [resolvePoolSize, defaultSizingInput, threadsCount],
   by simp [resolvePoolSize, defaultSizingInput, threadsCount],
   by decide, by decide, by decide, by decide⟩

theorem claim_C4_witness :
    0 < 8 ∧
    (resolvePoolSize (defaultSizingInput true 8) =
      (max (8 / 2) 1, max (8 / 2) 1) ∧
    resolvePoolSize (defaultSizingInput false 8) =
      (max (8 - 1) 1, max (8 - 1) 1) ∧
    resolvePoolSize (defaultSizingInput true 8) = (4, 4) ∧
    resolvePoolSize (defaultSizingInput false 8) = (7, 7) ∧
    resolvePoolSize (defaultSizingInput true 1) = (1, 1) ∧
    resolvePoolSize (defaultSizingInput false 1) = (1, 1)) :=
  ⟨by decide, claim_C4 8 (by decide)⟩

/-- Claim C6: when the `singleFork` flag is set or file parallelism is
disabled, the pool is constructed with both worker bounds equal to 1,
overriding every other sizing computation and override. -/
theorem claim_C6 (i : PoolSizingInput)
    (h : i.singleFork = true ∨ i.fileParallelism = false) :
    resolvePoolSize i = (1, 1) := by
  rcases h with h | h <;> simp [resolvePoolSize, h]

theorem claim_C6_witness :
    ((⟨false, 64, some 32, some 16, some 8, true, true⟩ :
        PoolSizingInput).singleFork = true ∨
      (⟨false, 64, some 32, some 16, some 8, true, true⟩ :
        PoolSizingInput).fileParallelism = false) ∧
    resolvePoolSize ⟨false, 64, some 32, some 16, some 8, true, true⟩ =
      (1, 1) :=
  ⟨Or.inl rfl, claim_C6 _ (Or.inl rfl)⟩

/-- Claim C7: on every settlement path the per-task channel cleanup runs
(the `finally` block) and removes all listeners from the channel emitter,
so after any finite sequence of tasks has settled — including 100
sequential tasks — zero per-task listeners remain registered. -/
theorem claim_C7 (c : Bool) (id0 : Nat) (files : List String)
    (o : TaskOutcome) (tasks : List TaskRun) :
    (runFiles c id0 files o).emitterAfter.total = 0 ∧
    residualListenerCount (dispatchFrom c id0 tasks).1 = 0 ∧
    residualListenerCount
      (dispatchFrom false 0
        (List.replicate 100 ⟨["f.ts"], .success⟩)).1 = 0 := by
  refine ⟨?_, ?_, ?_⟩
  · rw [runFiles_emitterAfter]
    rfl
  · simp [residualListenerCount, dispatchFrom, residual_dispatchRuns]
  · simp [residualListenerCount, dispatchFrom, residual_dispatchRuns]

/-- Claim C9: a regular-expression configuration value is serialized to a
string beginning with the fixed marker followed by the textual form of the
pattern (so the worker side can recover it by stripping the marker), and a
plain string value passes through `stringifyRegex` unchanged. -/
theorem claim_C9 (r : JSRegExp) (s : String) :
    stringifyRegex (.re r) =
      vitestMarker ++ ("/" ++ r.source ++ "/" ++ r.flags) ∧
    (∃ rest, stringifyRegex (.re r) = vitestMarker ++ rest ∧
      rest = JSRegExp.toString r) ∧
    vitestMarker = ("$$vitest:" : String) ∧
    stringifyRegex (.str s) = s :=
  ⟨rfl, ⟨JSRegExp.toString r, rfl, rfl⟩, rfl, rfl⟩

/-- Claim C10: a task rejection that is not an `Error` instance is always
rethrown as a genuine error destined for the aggregate — regardless of the
cancellation flag and even when its textual form matches the stuck-worker
or cancellation patterns — because both special branches require an
`Error` instance. -/
theorem claim_C10 (c : Bool) (id0 : Nat) (files : List String)
    (text : String) :
    (runFiles c id0 files (.rejected (.nonError text))).result =
      .rethrown (.nonError text) ∧
    (runFiles c id0 files (.rejected (.nonError text))).timeoutCauses = [] ∧
    (runFiles c id0 files (.rejected (.nonError text))).cancelledFiles = [] ∧
    genuineErr c ⟨files, .rejected (.nonError text)⟩ =
      some (.nonError text) ∧
    (runFiles true 0 ["a.ts"]
        (.rejected (.nonError cancelPattern))).result =
      .rethrown (.nonError cancelPattern) ∧
    (runFiles true 0 ["a.ts"]
        (.rejected (.nonError termPattern))).result =
      .rethrown (.nonError termPattern) := by
  refine ⟨?_, ?_, ?_, ?_, rfl, rfl⟩ <;>
    simp [runFiles, genuineErr, isTerminateTimeout, isCancelMatch]

/-- Claim C2 counterexample: the claim quantifies over every `Error` whose
message matches the cancellation pattern, but a message that also matches
the stuck-worker pattern is captured by the earlier stuck-worker branch:
with the cancellation flag set its files are not marked cancelled, and with
the flag unset it is swallowed rather than rethrown. -/
theorem claim_C2_cex :
    strHas ("Failed to terminate worker: The task has been cancelled")
      cancelPattern = true ∧
    (runFiles true 0 ["a.test.ts"]
        (.rejected (.jsError
          ("Failed to terminate worker: The task has been cancelled")))
      ).cancelledFiles = [] ∧
    (runFiles true 0 ["a.test.ts"]
        (.rejected (.jsError
          ("Failed to terminate worker: The task has been cancelled")))
      ).cancelledFiles ≠ [["a.test.ts"]] ∧
    (runFiles false 0 ["a.test.ts"]
        (.rejected (.jsError
          ("Failed to terminate worker: The task has been cancelled")))
      ).result = .resolved ∧
    (runFiles false 0 ["a.test.ts"]
        (.rejected (.jsError
          ("Failed to terminate worker: The task has been cancelled")))
      ).result ≠ .rethrown (.jsError
          ("Failed to terminate worker: The task has been cancelled")) := by
  refine ⟨by decide, by decide, by decide, by decide, by decide⟩

/-- Claim C2 (amended): for every task rejection that is an `Error` whose
message matches the cancellation pattern and does not match the
stuck-worker pattern: with the cancellation flag set the task files are
marked cancelled and the rejection is not propagated; with the flag unset
the identical rejection is rethrown as a genuine error. -/
theorem claim_C2 (msg : String) (files : List String) (id0 : Nat)
    (hc : strHas msg cancelPattern = true)
    (ht : strHas msg termPattern = false) :
    (runFiles true id0 files (.rejected (.jsError msg))).cancelledFiles =
      [files] ∧
    (runFiles true id0 files (.rejected (.jsError msg))).result =
      .resolved ∧
    (runFiles true id0 files (.rejected (.jsError msg))).timeoutCauses =
      [] ∧
    (runFiles false id0 files (.rejected (.jsError msg))).result =
      .rethrown (.jsError msg) ∧
    (runFiles false id0 files (.rejected (.jsError msg))).cancelledFiles =
      [] := by
  refine ⟨?_, ?_, ?_, ?_, ?_⟩ <;>
    simp [runFiles, isTerminateTimeout, isCancelMatch, hc, ht]

theorem claim_C2_witness :
    strHas cancelPattern cancelPattern = true ∧
    strHas cancelPattern termPattern = false ∧
    ((runFiles true 0 ["a.test.ts"]
        (.rejected (.jsError cancelPattern))).cancelledFiles =
      [["a.test.ts"]] ∧
    (runFiles true 0 ["a.test.ts"]
        (.rejected (.jsError cancelPattern))).result = .resolved ∧
    (runFiles true 0 ["a.test.ts"]
        (.rejected (.jsError cancelPattern))).timeoutCauses = [] ∧
    (runFiles false 0 ["a.test.ts"]
        (.rejected (.jsError cancelPattern))).result =
      .rethrown (.jsError cancelPattern) ∧
    (runFiles false 0 ["a.test.ts"]
        (.rejected (.jsError cancelPattern))).cancelledFiles = []) :=
  ⟨by decide, by decide,
   claim_C2 cancelPattern ["a.test.ts"] 0 (by decide) (by decide)⟩

/-- Claim C3: a task rejection that is an `Error` matching the stuck-worker
pattern records a process-level timeout cause naming the affected files and
is swallowed, for every cancellation-flag value (so the branch takes
priority over the cancellation classification), and no aggregate error of
any dispatch call ever contains a stuck-worker-matching error. -/
theorem claim_C3 (msg : String) (c : Bool) (id0 : Nat)
    (files : List String) (tasks : List TaskRun)
    (h : strHas msg termPattern = true) :
    (runFiles c id0 files (.rejected (.jsError msg))).result = .resolved ∧
    (runFiles c id0 files (.rejected (.jsError msg))).timeoutCauses =
      ["Failed to terminate worker while running " ++ joinComma files
        ++ "."] ∧
    (runFiles c id0 files (.rejected (.jsError msg))).cancelledFiles =
      [] ∧
    (aggregateErrors (dispatchFrom c id0 tasks).1).all
      (fun e => !isTerminateTimeout e) = true := by
  refine ⟨?_, ?_, ?_, ?_⟩
  · simp [runFiles, isTerminateTimeout, h]
  · simp [runFiles, isTerminateTimeout, h]
  · simp [runFiles, isTerminateTimeout, h]
  · rw [aggregateErrors_dispatchFrom, List.all_eq_true]
    intro e he
    rw [genuineErrors, List.mem_filterMap] at he
    obtain ⟨t, _, hg⟩ := he
    simp [genuineErr_not_term c t e hg]

theorem claim_C3_witness :
    strHas termPattern termPattern = true ∧
    ((runFiles true 0 ["a.test.ts"]
        (.rejected (.jsError termPattern))).result = .resolved ∧
    (runFiles true 0 ["a.test.ts"]
        (.rejected (.jsError termPattern))).timeoutCauses =
      ["Failed to terminate worker while running "
        ++ joinComma ["a.test.ts"] ++ "."] ∧
    (runFiles true 0 ["a.test.ts"]
        (.rejected (.jsError termPattern))).cancelledFiles = [] ∧
    (aggregateErrors
        (dispatchFrom true 0
          [⟨["b.ts"], .rejected (.jsError ("boom"))⟩]).1).all
      (fun e => !isTerminateTimeout e) = true) :=
  ⟨by decide,
   claim_C3 termPattern true 0 ["a.test.ts"]
     [⟨["b.ts"], .rejected (.jsError ("boom"))⟩] (by decide)⟩

/-- Claim C5: with total memory `M` known the baseline is `M/2` in watch
mode and `M` otherwise; an absolute byte count above 1 resolves to itself
independent of `M`, a ratio at most 1 or a percentage resolves against the
baseline (watch off with limit 50 percent gives `M/2`, watch on with ratio
one half gives `M/4`, the absolute limit 2048 gives 2048); with `M`
unknown, a numeric limit above 1 or a non-percent string still resolves to
bytes, while a ratio at most 1 or a percentage resolves to `null`. -/
theorem claim_C5 (w : Bool) (M n q p b : ℚ) (hn : n ≤ 1) (hq : 1 < q) :
    getMemoryLimit w (some M) (.num n) =
      some (n * (if w then M / 2 else M)) ∧
    getMemoryLimit w (some M) (.strPercent p) =
      some (p / 100 * (if w then M / 2 else M)) ∧
    getMemoryLimit w (some M) (.num q) = some q ∧
    getMemoryLimit false (some M) (.strPercent 50) = some (M / 2) ∧
    getMemoryLimit true (some M) (.num (1 / 2)) = some (M / 4) ∧
    getMemoryLimit w (some M) (.num 2048) = some 2048 ∧
    getMemoryLimit w none (.num q) = some q ∧
    getMemoryLimit w none (.strBytes b) = some b ∧
    getMemoryLimit w none (.num n) = none ∧
    getMemoryLimit w none (.strPercent p) = none := by
  have hq1 : ¬(q ≤ 1) := not_le.mpr hq
  have hn1 : ¬(1 < n) := not_lt.mpr hn
  refine ⟨?_, ?_, ?_, ?_, ?_, ?_, ?_, ?_, ?_, ?_⟩
  · simp [getMemoryLimit, stringToBytes, hn]
  · simp [getMemoryLimit, stringToBytes]
  · simp [getMemoryLimit, stringToBytes, hq1]
  · simp [getMemoryLimit, stringToBytes]
    ring
  · have h12 : ((1 : ℚ) / 2) ≤ 1 := by norm_num
    rw [getMemoryLimit, stringToBytes, if_pos h12]
    norm_num
    ring
  · simp [getMemoryLimit, stringToBytes]
  · simp [getMemoryLimit, stringToBytes, resolvableWithoutTotal, hq, hq1]
  · simp [getMemoryLimit, stringToBytes, resolvableWithoutTotal]
  · simp [getMemoryLimit, resolvableWithoutTotal, hn1]
  · simp [getMemoryLimit, resolvableWithoutTotal]

theorem claim_C5_witness :
    ((1 : ℚ) / 2 ≤ 1) ∧ ((1 : ℚ) < 2048) ∧
    (getMemoryLimit false (some 1000) (.num (1 / 2)) =
      some ((1 / 2) * (if false then (1000 : ℚ) / 2 else 1000)) ∧
    getMemoryLimit false (some 1000) (.strPercent 10) =
      some ((10 : ℚ) / 100 * (if false then (1000 : ℚ) / 2 else 1000)) ∧
    getMemoryLimit false (some 1000) (.num 2048) = some 2048 ∧
    getMemoryLimit false (some 1000) (.strPercent 50) =
      some ((1000 : ℚ) / 2) ∧
    getMemoryLimit true (some 1000) (.num (1 / 2)) =
      some ((1000 : ℚ) / 4) ∧
    getMemoryLimit false (some 1000) (.num 2048) = some 2048 ∧
    getMemoryLimit false none (.num 2048) = some 2048 ∧
    getMemoryLimit false none (.strBytes 512) = some 512 ∧
    getMemoryLimit false none (.num (1 / 2)) = none ∧
    getMemoryLimit false none (.strPercent 10) = none) :=
  ⟨by norm_num, by norm_num,
   claim_C5 false 1000 (1 / 2) 2048 10 512 (by norm_num) (by norm_num)⟩

/-- Claim C8 counterexample: the `id` counter lives in the `runWithFiles`
closure, not in the dispatch function, so the second dispatch invocation of
the same pool assigns worker id 2 to its only task instead of starting
fresh at 1. -/
theorem claim_C8_cex :
    ((poolDispatchSeq false
        [[⟨["a.ts"], .success⟩], [⟨["b.ts"], .success⟩]]).map
      (fun d => d.runs.map (fun r => r.workerId))) = [[1], [2]] ∧
    ([[1], [2]] : List (List Nat)) ≠ [[1], [1]] :=
  ⟨by decide, by decide⟩

/-- Claim C8 (amended): within each dispatch invocation the worker ids
increase monotonically by 1, but the counter is owned by the enclosing
`runWithFiles` closure: an invocation started at counter state `id0`
assigns ids `id0 + 1, ..., id0 + n` and leaves the counter at `id0 + n`,
and each later invocation of the same pool continues from the counter state
the previous one left behind (the first starts at 0). -/
theorem claim_C8_amended (c : Bool) (id0 : Nat) (tasks : List TaskRun)
    (callA : List TaskRun) (calls : List (List TaskRun)) :
    ((dispatchFrom c id0 tasks).1.runs.map (fun r => r.workerId) =
      idsFrom id0 tasks.length) ∧
    ((dispatchFrom c id0 tasks).2 = id0 + tasks.length) ∧
    (poolDispatchSeqAux c id0 (callA :: calls) =
      (dispatchFrom c id0 callA).1 ::
        poolDispatchSeqAux c (id0 + callA.length) calls) ∧
    (poolDispatchSeq c (callA :: calls) =
      (dispatchFrom c 0 callA).1 ::
        poolDispatchSeqAux c callA.length calls) := by
  refine ⟨?_, dispatchFrom_snd c id0 tasks, ?_, ?_⟩
  · simp [dispatchFrom, dispatchRuns_ids]
  · simp only [poolDispatchSeqAux, dispatchFrom_snd]
  · simp only [poolDispatchSeq, poolDispatchSeqAux, dispatchFrom_snd,
      Nat.zero_add]
